import Mathlib

/-!
Shallow embedding of `src/ollama_cli.py` (ollama_cli v0.2.0).

The program keeps a conversation `messages : list[dict[str, str]]` (role /
content pairs), reads interactive input lines, dispatches the two reserved
commands `show-markdown` and `multiline`, and otherwise sends the
conversation to `ask_ollama`, which either streams chunks (accumulating a
growing markdown render) or renders one complete response.

External effects (the chat service, the keyboard) are modelled by an
`ExchangeScript`: which chunks arrive and where a `KeyboardInterrupt`
strikes.  A single loop iteration of `cli` (source lines 111-149) is the
step function `stepCli`; the one-shot path (source lines 99-105) is
`oneShotRun`.
-/

/-- ASCII approximation of the characters removed by Python `str.strip()`
with no argument: space, tab, newline, carriage return, vertical tab,
form feed. -/
def isPySpace (c : Char) : Bool :=
  c == ' ' || c == '\t' || c == '\n' || c == '\r' || c == Char.ofNat 11 || c == Char.ofNat 12

/-- Remove leading and trailing characters satisfying `p`, as Python
`str.strip` does. -/
def stripEnds (p : Char → Bool) (s : String) : String :=
  String.mk (((s.toList.dropWhile p).reverse.dropWhile p).reverse)

/-- Python `text.strip()` (no argument: strips whitespace). -/
def pyStrip (s : String) : String :=
  stripEnds isPySpace s

/-- Python `text.strip(" ")`: strips space characters only. -/
def pyStripSpaces (s : String) : String :=
  stripEnds (fun c => c == ' ') s

/-- Python `text.lower()` (ASCII case folding, which covers the reserved
command words), as a character-wise map. -/
def pyLower (s : String) : String :=
  String.mk (s.toList.map Char.toLower)

/-- Python `text.replace(" ", "-")`: every space becomes a hyphen (the
pattern is a single character, so this is a character-wise map). -/
def spacesToHyphens (s : String) : String :=
  String.mk (s.toList.map (fun c => if c == ' ' then '-' else c))

/-- Source line 124: `ident_prompt = text.lower().strip(" ").replace(" ", "-")`. -/
def identPrompt (text : String) : String :=
  spacesToHyphens (pyStripSpaces (pyLower text))

/-- One chat message dict `{"role": ..., "content": ...}`. -/
structure Message where
  role : String
  content : String
deriving DecidableEq

/-- Source line 97: `messages = [{"role": "system", "content": setup}]`. -/
def initMessages (setup : String) : List Message :=
  [⟨"system", setup⟩]

/-- The interactive loop's mutable state: the conversation plus the
`multiline` flag (source lines 97 and 109). -/
structure LoopState where
  messages : List Message
  multiline : Bool
deriving DecidableEq

/-- The Python exceptions relevant to this program. -/
inductive PyExc where
  | keyboardInterrupt
  | typeError (msg : String)
deriving DecidableEq

/-- What one call of `ask_ollama` produced: the returned content string,
the sequence of markdown renders it performed (each `live.update` /
`console.print`), and whether the `Interrupted` notice was printed. -/
structure OllamaResult where
  content : String
  renders : List String
  interrupted : Bool
deriving DecidableEq

/-- The environment of one exchange: whether `KeyboardInterrupt` strikes
while blocked in `ollama.chat` (inside the `Status` block, source lines
169-170), the stream chunks the service would deliver
(`chunk["message"]["content"]` for each), after how many consumed chunks
an interrupt strikes the streaming loop (`none` = no interrupt), and the
full response text in the non-streaming case
(`response["message"]["content"]`). -/
structure ExchangeScript where
  interruptDuringWait : Bool
  chunks : List String
  interruptAfter : Option Nat
  fullText : String
deriving DecidableEq

/-- One iteration of the streaming loop body (source lines 178-181):
`content += chunk_text; live.update(Markdown(content))`.  The pair carries
the accumulator and the list of renders so far. -/
def streamStep (p : String × List String) (c : String) : String × List String :=
  (p.1 ++ c, p.2 ++ [p.1 ++ c])

/-- The streaming loop (source lines 174-181) run over a list of chunk
texts, starting from `content = ""` and no renders. -/
def streamState (chunks : List String) : String × List String :=
  chunks.foldl streamStep ("", [])

/-- Concatenation of chunk texts in arrival order. -/
def concatChunks : List String → String
  | [] => ""
  | c :: cs => c ++ concatChunks cs

/-- Closed form of the render sequence: accumulator values after each
chunk, starting from accumulator `acc`. -/
def rendersFrom (acc : String) : List String → List String
  | [] => []
  | c :: cs => (acc ++ c) :: rendersFrom (acc ++ c) cs

/-- `ask_ollama` (source lines 154-191).  An interrupt while blocked in
`ollama.chat` propagates (the `try` starts only at line 177).  In
streaming mode the chunk loop accumulates and renders; an interrupt while
consuming fragments is caught at line 182, the partial accumulator is kept
and still returned at line 191.  In non-streaming mode the full text is
rendered once and returned. -/
def askOllama (model : String) (messages : List Message) (stream : Bool)
    (script : ExchangeScript) : Except PyExc OllamaResult :=
  if script.interruptDuringWait then
    Except.error PyExc.keyboardInterrupt
  else if stream then
    match script.interruptAfter with
    | some k =>
      let st := streamState (script.chunks.take k)
      Except.ok ⟨st.1, st.2, true⟩
    | none =>
      let st := streamState script.chunks
      Except.ok ⟨st.1, st.2, false⟩
  else
    Except.ok ⟨script.fullText, [script.fullText], false⟩

/-- What `session.prompt` (source lines 112-119) yields: a line of text,
or one of the two exceptions caught at line 118. -/
inductive ReadResult where
  | line (text : String)
  | keyboardInterrupt
  | eofError
deriving DecidableEq

/-- Outcome of one loop iteration: continue with a new state (and, for
`show-markdown`, the content that was displayed), return an exit code, or
crash on an uncaught exception. -/
inductive StepResult where
  | cont (st : LoopState) (displayed : Option String)
  | exit (code : Nat)
  | crash (e : PyExc)
deriving DecidableEq

/-- The continuation state of a step, if the loop continues. -/
def contState : StepResult → Option LoopState
  | .cont st _ => some st
  | _ => none

/-- One iteration of the interactive loop (source lines 111-149).
`KeyboardInterrupt` / `EOFError` at the prompt return 0 (line 118-119);
blank input is skipped (121-122); `show-markdown` displays
`messages[-1]["content"]` (124-131; the conversation is never empty in a
reachable state, so the negative index is `getLast?`); `multiline` flips
the flag (132-141); any other input appends a user message, calls
`ask_ollama`, returns 0 on `KeyboardInterrupt` (145-148) and otherwise
appends the returned content as an assistant message (149). -/
def stepCli (model : String) (stream : Bool) (st : LoopState)
    (r : ReadResult) (script : ExchangeScript) : StepResult :=
  match r with
  | .keyboardInterrupt => .exit 0
  | .eofError => .exit 0
  | .line text =>
    if pyStrip text = "" then
      .cont st none
    else
      if identPrompt text = "show-markdown" then
        .cont st ((st.messages.getLast?).map Message.content)
      else if identPrompt text = "multiline" then
        .cont ⟨st.messages, !st.multiline⟩ none
      else
        let messages1 := st.messages ++ [⟨"user", text⟩]
        match askOllama model messages1 stream script with
        | .error .keyboardInterrupt => .exit 0
        | .error e => .crash e
        | .ok result => .cont ⟨messages1 ++ [⟨"assistant", result.content⟩], st.multiline⟩ none

/-- `ask_ollama` (source line 154) has four required positional
parameters: model, messages, stream, console. -/
def askOllamaParamCount : Nat := 4

/-- The one-shot call site (source line 102) passes three positional
arguments: `ask_ollama(messages, stream, console)`. -/
def oneShotCallArgCount : Nat := 3

/-- Python call semantics for the call at source line 102: a call that
supplies fewer arguments than the required positional parameters raises
`TypeError` before the callee body runs. -/
def oneShotAskCall (messages : List Message) (stream : Bool)
    (script : ExchangeScript) : Except PyExc OllamaResult :=
  if oneShotCallArgCount = askOllamaParamCount then
    askOllama "" messages stream script
  else
    Except.error (PyExc.typeError "ask_ollama missing 1 required positional argument: console")

/-- The one-shot path of `cli` (source lines 99-105): append the prompt as
a user message, call `ask_ollama(messages, stream, console)` under
`except KeyboardInterrupt: pass`, and return 0.  Any exception other than
`KeyboardInterrupt` propagates out of `cli` and crashes the process. -/
def oneShotRun (prompt : String) (setup : String) (stream : Bool)
    (script : ExchangeScript) : StepResult :=
  let messages := initMessages setup ++ [⟨"user", prompt⟩]
  match oneShotAskCall messages stream script with
  | .error .keyboardInterrupt => .exit 0
  | .error e => .crash e
  | .ok _ => .exit 0

/-! ### Helper lemmas about the streaming fold -/

/-- The streaming fold from an arbitrary accumulator: the final content is
the accumulator followed by the concatenated chunks, and the renders are
the successive accumulator values. -/
theorem foldl_streamStep (chunks : List String) (acc : String) (rs : List String) :
    List.foldl streamStep (acc, rs) chunks
      = (acc ++ concatChunks chunks, rs ++ rendersFrom acc chunks) := by
  induction chunks generalizing acc rs with
  | nil => simp [concatChunks, rendersFrom, String.append_empty]
  | cons c cs ih =>
      simp only [List.foldl_cons, streamStep, ih, concatChunks, rendersFrom,
        String.append_assoc, List.append_assoc, List.singleton_append]

/-- Closed form of the streaming loop. -/
theorem streamState_eq (chunks : List String) :
    streamState chunks = (concatChunks chunks, rendersFrom "" chunks) := by
  unfold streamState
  rw [foldl_streamStep]
  simp [String.empty_append]

/-- Characters of an appended string. -/
theorem strToList_append (a b : String) : (a ++ b).toList = a.toList ++ b.toList :=
  String.data_append a b

/-- A character list is a `List.isPrefixOf` of itself followed by anything. -/
theorem isPrefixOf_append_self (l t : List Char) : l.isPrefixOf (l ++ t) = true := by
  induction l with
  | nil => simp [List.isPrefixOf]
  | cons a as ih => simp [List.isPrefixOf, ih]

/-- A string is a prefix (in the `List.isPrefixOf` sense on characters) of
itself followed by anything. -/
theorem strPre_append (r t : String) : r.toList.isPrefixOf ((r ++ t).toList) = true := by
  rw [strToList_append]
  exact isPrefixOf_append_self r.toList t.toList

/-- Every render produced from accumulator `acc` is a prefix of the final
text `acc ++ concatChunks cs`. -/
theorem rendersFrom_pre (cs : List String) :
    ∀ acc : String, ∀ r ∈ rendersFrom acc cs,
      r.toList.isPrefixOf ((acc ++ concatChunks cs).toList) = true := by
  induction cs with
  | nil =>
      intro acc r hr
      simp [rendersFrom] at hr
  | cons c cs ih =>
      intro acc r hr
      simp only [rendersFrom, List.mem_cons] at hr
      rcases hr with rfl | hr
      · have h : acc ++ concatChunks (c :: cs) = (acc ++ c) ++ concatChunks cs := by
          simp [concatChunks, String.append_assoc]
        rw [h]
        exact strPre_append (acc ++ c) (concatChunks cs)
      · have h : acc ++ concatChunks (c :: cs) = (acc ++ c) ++ concatChunks cs := by
          simp [concatChunks, String.append_assoc]
        rw [h]
        exact ih (acc ++ c) r hr

/-- Successive renders form an increasing chain of prefixes. -/
theorem rendersFrom_chain (cs : List String) :
    ∀ acc : String,
      List.Chain' (fun a b => a.toList.isPrefixOf b.toList = true) (rendersFrom acc cs) := by
  induction cs with
  | nil => intro acc; simp [rendersFrom]
  | cons c cs ih =>
      intro acc
      rw [rendersFrom, List.chain'_cons']
      refine ⟨?_, ih (acc ++ c)⟩
      intro y hy
      cases cs with
      | nil => simp [rendersFrom] at hy
      | cons d ds =>
          simp only [rendersFrom, List.head?_cons, Option.mem_def, Option.some.injEq] at hy
          subst hy
          exact strPre_append (acc ++ c) d

/-! ### Helper lemmas about exceptions -/

/-- `ask_ollama` can only raise `KeyboardInterrupt` in this model: the chat
service and the stream never raise anything else in a scripted run. -/
theorem askOllama_error_eq (m : String) (msgs : List Message) (s : Bool)
    (sc : ExchangeScript) (e : PyExc) (h : askOllama m msgs s sc = Except.error e) :
    e = PyExc.keyboardInterrupt := by
  unfold askOllama at h
  by_cases hw : sc.interruptDuringWait
  · simp [hw] at h
    exact h.symm
  · by_cases hs : s
    · rcases hsa : sc.interruptAfter with _ | k <;> simp [hw, hs, hsa] at h
    · simp [hw, hs] at h

/-- A streaming exchange interrupted after `k` consumed chunks still
makes the loop append the partial accumulator as an assistant message:
the interrupt is caught at source line 182 and the partial content is
returned at line 191, so line 149 runs normally. -/
theorem stepCli_stream_interrupt (model : String) (st : LoopState) (text : String)
    (sc : ExchangeScript) (k : Nat)
    (hb : pyStrip text ≠ "") (h1 : identPrompt text ≠ "show-markdown")
    (h2 : identPrompt text ≠ "multiline")
    (hw : sc.interruptDuringWait = false) (hk : sc.interruptAfter = some k) :
    stepCli model true st (ReadResult.line text) sc
      = StepResult.cont
          ⟨st.messages ++ [⟨"user", text⟩,
            ⟨"assistant", (streamState (sc.chunks.take k)).1⟩], st.multiline⟩ none := by
  simp only [stepCli]
  rw [if_neg hb, if_neg h1, if_neg h2]
  simp [askOllama, hw, hk]

/-- No iteration of the interactive loop ends in an uncaught exception:
the only exception that can reach the loop body is `KeyboardInterrupt`,
and it is caught. -/
theorem stepCli_noCrash (m : String) (s : Bool) (st : LoopState) (r : ReadResult)
    (sc : ExchangeScript) (e : PyExc) : stepCli m s st r sc ≠ StepResult.crash e := by
  cases r with
  | keyboardInterrupt => simp [stepCli]
  | eofError => simp [stepCli]
  | line text =>
      simp only [stepCli]
      by_cases hb : pyStrip text = ""
      · simp [hb]
      · rw [if_neg hb]
        by_cases h1 : identPrompt text = "show-markdown"
        · simp [h1]
        · rw [if_neg h1]
          by_cases h2 : identPrompt text = "multiline"
          · simp [h2]
          · rw [if_neg h2]
            rcases ha : askOllama m (st.messages ++ [⟨"user", text⟩]) s sc with e2 | res
            · have he2 : e2 = PyExc.keyboardInterrupt :=
                askOllama_error_eq m (st.messages ++ [⟨"user", text⟩]) s sc e2 ha
              subst he2
              simp [ha]
            · simp [ha]

/-! ### Claim theorems -/

/-- Claim C1 (code bug): in one-shot mode the source (line 102) calls
`ask_ollama(messages, stream, console)`, supplying 3 arguments to a
function whose 4 required positional parameters are
`model, messages, stream, console` (line 154).  Python raises `TypeError`
before any exchange happens, and the handler `except KeyboardInterrupt`
does not catch it, so the process crashes instead of performing the
exchange and returning 0. -/
theorem oneShot_crashes_with_typeError (prompt setup : String) (stream : Bool)
    (sc : ExchangeScript) :
    oneShotRun prompt setup stream sc
      = StepResult.crash
          (PyExc.typeError "ask_ollama missing 1 required positional argument: console") := rfl

/-- Claim C2 (counterexample): a streaming exchange interrupted after one
consumed chunk (script chunks `["Hel", "lo"]`, interrupt after 1) DOES
append the partial text `"Hel"` to the conversation as an assistant
message, contrary to the claim that no assistant message is added for the
interrupted turn. -/
theorem stream_interrupt_partial_retained_cex :
    (contState (stepCli "llama2" true ⟨initMessages "s", false⟩ (ReadResult.line "hi")
        ⟨false, ["Hel", "lo"], some 1, ""⟩)).map LoopState.messages
      = some [⟨"system", "s"⟩, ⟨"user", "hi"⟩, ⟨"assistant", "Hel"⟩] := rfl

/-- Claim C2 (amended): when a streaming exchange is interrupted while
fragments are being consumed, `ask_ollama` catches the interrupt (source
line 182), returns the partial accumulated text (line 191), and the loop
appends that partial text to the conversation as an assistant message
(line 149). -/
theorem stream_interrupt_appends_partial_text (model : String) (st : LoopState) (text : String)
    (sc : ExchangeScript) (k : Nat)
    (hb : pyStrip text ≠ "") (h1 : identPrompt text ≠ "show-markdown")
    (h2 : identPrompt text ≠ "multiline")
    (hw : sc.interruptDuringWait = false) (hk : sc.interruptAfter = some k) :
    stepCli model true st (ReadResult.line text) sc
      = StepResult.cont
          ⟨st.messages ++ [⟨"user", text⟩,
            ⟨"assistant", (streamState (sc.chunks.take k)).1⟩], st.multiline⟩ none :=
  stepCli_stream_interrupt model st text sc k hb h1 h2 hw hk

/-- Witness for the amended claim C2 at a concrete interrupted stream. -/
theorem stream_interrupt_appends_partial_text_w :
    stepCli "llama2" true ⟨initMessages "s", false⟩ (ReadResult.line "hi")
        ⟨false, ["Hel", "lo"], some 1, ""⟩
      = StepResult.cont
          ⟨initMessages "s" ++ [⟨"user", "hi"⟩,
            ⟨"assistant", (streamState (["Hel", "lo"].take 1)).1⟩], false⟩ none :=
  stream_interrupt_appends_partial_text "llama2" ⟨initMessages "s", false⟩ "hi"
    ⟨false, ["Hel", "lo"], some 1, ""⟩ 1 (by decide) (by decide) (by decide) rfl rfl

/-- Claim C3: any input whose normalized form (source line 124) is
`show-markdown` or `multiline` leaves the conversation unchanged. -/
theorem reserved_commands_preserve_conversation (model : String) (stream : Bool)
    (st : LoopState) (text : String) (sc : ExchangeScript)
    (h : identPrompt text = "show-markdown" ∨ identPrompt text = "multiline") :
    (contState (stepCli model stream st (ReadResult.line text) sc)).map LoopState.messages
      = some st.messages := by
  simp only [stepCli]
  by_cases hb : pyStrip text = ""
  · rw [if_pos hb]
    rfl
  · rw [if_neg hb]
    rcases h with h | h
    · rw [if_pos h]
      rfl
    · have hne : identPrompt text ≠ "show-markdown" := by
        rw [h]
        decide
      rw [if_neg hne, if_pos h]
      rfl

/-- Witness for claim C3: `Show Markdown` normalizes to `show-markdown`
and leaves the conversation unchanged. -/
theorem reserved_commands_preserve_conversation_w :
    (contState (stepCli "llama2" true ⟨initMessages "s", false⟩ (ReadResult.line "Show Markdown")
        ⟨false, [], none, ""⟩)).map LoopState.messages = some (initMessages "s") :=
  reserved_commands_preserve_conversation "llama2" true ⟨initMessages "s", false⟩ "Show Markdown"
    ⟨false, [], none, ""⟩ (Or.inl rfl)

/-- Claim C4: a blank input changes nothing and the loop continues; a
non-blank input that is not a reserved command appends exactly one user
message and, when the exchange completes without interruption, exactly one
assistant message carrying the response text. -/
theorem nonreserved_input_appends_user_then_assistant (model : String) (stream : Bool)
    (st : LoopState) (text : String) (sc : ExchangeScript) :
    (pyStrip text = "" → stepCli model stream st (ReadResult.line text) sc
        = StepResult.cont st none)
    ∧ (pyStrip text ≠ "" → identPrompt text ≠ "show-markdown" →
        identPrompt text ≠ "multiline" →
        sc.interruptDuringWait = false → (stream = true → sc.interruptAfter = none) →
        stepCli model stream st (ReadResult.line text) sc
          = StepResult.cont
              ⟨st.messages ++ [⟨"user", text⟩,
                ⟨"assistant", cond stream (streamState sc.chunks).1 sc.fullText⟩],
               st.multiline⟩ none) := by
  constructor
  · intro hb
    simp only [stepCli]
    rw [if_pos hb]
  · intro hb h1 h2 hw hs
    simp only [stepCli]
    rw [if_neg hb, if_neg h1, if_neg h2]
    cases stream with
    | true => simp [askOllama, hw, hs rfl]
    | false => simp [askOllama, hw]

/-- Witness for claim C4 at a concrete successful streaming exchange. -/
theorem nonreserved_input_appends_user_then_assistant_w :
    stepCli "llama2" true ⟨initMessages "s", false⟩ (ReadResult.line "hi")
        ⟨false, ["Hel", "lo"], none, ""⟩
      = StepResult.cont
          ⟨initMessages "s" ++ [⟨"user", "hi"⟩,
            ⟨"assistant", cond true (streamState ["Hel", "lo"]).1 ""⟩], false⟩ none :=
  (nonreserved_input_appends_user_then_assistant "llama2" true ⟨initMessages "s", false⟩ "hi"
    ⟨false, ["Hel", "lo"], none, ""⟩).2 (by decide) (by decide) (by decide) rfl (fun _ => rfl)

/-- Claim C5: an uninterrupted streaming exchange returns the
concatenation of the chunk texts in arrival order, every intermediate
render is a prefix (on characters) of the final text, and the renders form
an increasing chain of prefixes. -/
theorem streaming_accumulates_in_order (model : String) (messages : List Message)
    (chunks : List String) (ft : String) :
    askOllama model messages true ⟨false, chunks, none, ft⟩
        = Except.ok ⟨concatChunks chunks, rendersFrom "" chunks, false⟩
    ∧ (∀ r ∈ rendersFrom "" chunks,
        r.toList.isPrefixOf ((concatChunks chunks).toList) = true)
    ∧ List.Chain' (fun a b => a.toList.isPrefixOf b.toList = true)
        (rendersFrom "" chunks) := by
  refine ⟨?_, ?_, rendersFrom_chain chunks ""⟩
  · simp [askOllama, streamState_eq]
  · intro r hr
    have h := rendersFrom_pre chunks "" r hr
    rwa [String.empty_append] at h

/-- Witness for claim C5 at the chunks `["Hel", "lo"]`: the first render
`"Hel"` is a prefix of the final text `"Hello"`. -/
theorem streaming_accumulates_in_order_w :
    "Hel".toList.isPrefixOf ((concatChunks ["Hel", "lo"]).toList) = true :=
  (streaming_accumulates_in_order "llama2" [] ["Hel", "lo"] "").2.1 "Hel" (by decide)

/-- Claim C6: a non-streaming exchange that completes renders the full
response text exactly once and returns it unchanged. -/
theorem nonstreaming_renders_once (model : String) (messages : List Message)
    (sc : ExchangeScript) (hw : sc.interruptDuringWait = false) :
    askOllama model messages false sc
      = Except.ok ⟨sc.fullText, [sc.fullText], false⟩ := by
  simp [askOllama, hw]

/-- Witness for claim C6 with full text `"Hello"`. -/
theorem nonstreaming_renders_once_w :
    askOllama "llama2" [] false ⟨false, [], none, "Hello"⟩
      = Except.ok ⟨"Hello", ["Hello"], false⟩ :=
  nonstreaming_renders_once "llama2" [] ⟨false, [], none, "Hello"⟩ rfl

/-- Claim C7: processing the `multiline` command twice in a row restores
the whole loop state (conversation and flags) exactly. -/
theorem multiline_double_toggle_identity (model : String) (stream : Bool) (st : LoopState)
    (sc1 sc2 : ExchangeScript) :
    (contState (stepCli model stream st (ReadResult.line "multiline") sc1)).bind
      (fun st1 => contState (stepCli model stream st1 (ReadResult.line "multiline") sc2))
      = some st := by
  have h1 : stepCli model stream st (ReadResult.line "multiline") sc1
      = StepResult.cont ⟨st.messages, !st.multiline⟩ none := rfl
  have h2 : stepCli model stream ⟨st.messages, !st.multiline⟩ (ReadResult.line "multiline") sc2
      = StepResult.cont ⟨st.messages, !(!st.multiline)⟩ none := rfl
  rw [h1]
  show contState (stepCli model stream ⟨st.messages, !st.multiline⟩
      (ReadResult.line "multiline") sc2) = some st
  rw [h2]
  show some (⟨st.messages, !(!st.multiline)⟩ : LoopState) = some st
  rw [Bool.not_not]

/-- Claim C8: end-of-input or an interrupt while awaiting a new line makes
the loop return exit code 0. -/
theorem interrupt_or_eof_at_read_exits_zero (model : String) (stream : Bool)
    (st : LoopState) (sc : ExchangeScript) :
    stepCli model stream st ReadResult.keyboardInterrupt sc = StepResult.exit 0
    ∧ stepCli model stream st ReadResult.eofError sc = StepResult.exit 0 :=
  ⟨rfl, rfl⟩

/-- Claim C9 (counterexample): an interrupt while waiting for the first
response byte does not unwind to the next loop iteration: the loop
returns exit code 0 and the process terminates (there is no continuation
state). -/
theorem interrupt_during_wait_exits_cex :
    stepCli "llama2" true ⟨initMessages "s", false⟩ (ReadResult.line "hi")
        ⟨true, ["Hel"], none, ""⟩ = StepResult.exit 0
    ∧ contState (stepCli "llama2" true ⟨initMessages "s", false⟩ (ReadResult.line "hi")
        ⟨true, ["Hel"], none, ""⟩) = none :=
  ⟨rfl, rfl⟩

/-- Claim C9 (amended): an interrupt at any of the three blocking points
never crashes the process, but only the fragment-iteration point continues
the loop: an interrupt at the read-line point or while waiting for the
first response byte terminates the loop with exit code 0, while an
interrupt during fragment iteration is absorbed and the loop continues
(with the partial text appended). -/
theorem interrupts_never_crash (model : String) (stream : Bool) (st : LoopState)
    (text : String) (sc : ExchangeScript) (e : PyExc) :
    stepCli model stream st ReadResult.keyboardInterrupt sc = StepResult.exit 0
    ∧ (pyStrip text ≠ "" → identPrompt text ≠ "show-markdown" →
        identPrompt text ≠ "multiline" →
        ((sc.interruptDuringWait = true →
            stepCli model stream st (ReadResult.line text) sc = StepResult.exit 0)
         ∧ (∀ k : Nat, sc.interruptDuringWait = false → stream = true →
             sc.interruptAfter = some k →
             contState (stepCli model stream st (ReadResult.line text) sc)
               = some ⟨st.messages ++ [⟨"user", text⟩,
                   ⟨"assistant", (streamState (sc.chunks.take k)).1⟩], st.multiline⟩)))
    ∧ stepCli model stream st ReadResult.keyboardInterrupt sc ≠ StepResult.crash e
    ∧ stepCli model stream st ReadResult.eofError sc ≠ StepResult.crash e
    ∧ stepCli model stream st (ReadResult.line text) sc ≠ StepResult.crash e := by
  refine ⟨rfl, ?_, stepCli_noCrash model stream st ReadResult.keyboardInterrupt sc e,
    stepCli_noCrash model stream st ReadResult.eofError sc e,
    stepCli_noCrash model stream st (ReadResult.line text) sc e⟩
  intro hb h1 h2
  constructor
  · intro hw
    simp only [stepCli]
    rw [if_neg hb, if_neg h1, if_neg h2]
    simp [askOllama, hw]
  · intro k hw hs hk
    subst hs
    rw [stepCli_stream_interrupt model st text sc k hb h1 h2 hw hk]
    rfl

/-- Witness for the amended claim C9: a concrete interrupt during the
wait for the first response byte exits with code 0. -/
theorem interrupts_never_crash_w :
    stepCli "llama2" true ⟨initMessages "s", false⟩ (ReadResult.line "hi")
        ⟨true, [], none, ""⟩ = StepResult.exit 0 :=
  ((interrupts_never_crash "llama2" true ⟨initMessages "s", false⟩ "hi"
      ⟨true, [], none, ""⟩ PyExc.keyboardInterrupt).2.1 (by decide) (by decide) (by decide)).1 rfl

/-- Claim C10: issuing `show-markdown` on the initial state (only the
system setup message present) displays the setup message content and
leaves the state unchanged. -/
theorem show_markdown_initially_displays_setup (model : String) (stream : Bool)
    (setup : String) (sc : ExchangeScript) :
    stepCli model stream ⟨initMessages setup, false⟩ (ReadResult.line "show-markdown") sc
      = StepResult.cont ⟨initMessages setup, false⟩ (some setup) := rfl
